import Mathlib

/-!
Verification of the 301-tensorflow-training-openvino-pot notebook.

The notebook defines a `ClassificationDataLoader` (a POT `DataLoader` over a
directory-per-category image dataset), an `Accuracy` metric (a POT `Metric`
accumulating per-call boolean match records), and a linear quantization
driver script (load model, deep-copy a baseline, run the POT pipeline,
compress weights, save, evaluate both models).

This file shallowly embeds those pieces: Python lists become Lean lists,
numpy float arrays become lists of rationals (exact arithmetic; the
float results of the notebook agree within rounding), fallible Python code
returns `Except PyError`, and the in-place mutation of
model artifacts by the quantization driver is made explicit with a small append-only heap.  External
library calls (cv2 image decoding, the POT pipeline algorithms) are
parameters of the embedding, never inspected.
-/

namespace PotNotebook

/-- Python exception kinds raised by the code under study. -/
inductive PyError where
  | indexError
  | valueError
  | zeroDivisionError
  | stopIteration
deriving DecidableEq, Repr

/-! ### The `Accuracy` metric

```python
class Accuracy(Metric):
    def __init__(self):
        super().__init__()
        self._name = "accuracy"
        self._matches = []
```
Each `update` call appends one entry to `_matches`; because `np.argmax(...,
axis=1)` is applied to a batch, each entry is a boolean array (one boolean
per sample of the batch), modelled as `List Bool`. -/
structure Accuracy where
  name : String
  _matches : List (List Bool)
deriving DecidableEq, Repr

/-- `Accuracy.__init__`: name "accuracy", empty match record. -/
def Accuracy.init : Accuracy :=
  { name := "accuracy", _matches := [] }

/-- Tail of `np.argmax`: scan the remaining entries, keeping the index of the
first maximum seen so far (numpy keeps the earliest index on ties, and a
strictly greater value replaces it). -/
def argmaxGo (best : ℕ) (bestVal : ℚ) (i : ℕ) : List ℚ → ℕ
  | [] => best
  | x :: xs => if bestVal < x then argmaxGo i x (i + 1) xs else argmaxGo best bestVal (i + 1) xs

/-- `np.argmax` on a one-dimensional array: index of the first occurrence of
the maximum.  (numpy raises on an empty array; the notebook only applies it
to model output rows, which are nonempty, so the `[]` case is arbitrary.) -/
def npArgmax : List ℚ → ℕ
  | [] => 0
  | x :: xs => argmaxGo 0 x 1 xs

/-- `Accuracy.update(output, target)`:

```python
predict = np.argmax(output[0], axis=1)
match = predict == target
self._matches.append(match)
```

`output` is a list of output tensors; `output[0]` (IndexError when absent)
is a batch-by-classes matrix.  `np.argmax(..., axis=1)` takes the arg-max of
each row; elementwise `==` against the equally long target vector yields one
boolean array, appended as a single entry of `_matches`. -/
def Accuracy.update (a : Accuracy) (output : List (List (List ℚ))) (target : List ℕ) :
    Except PyError Accuracy :=
  match output.head? with
  | none => .error .indexError
  | some o0 =>
      let predict := o0.map npArgmax
      let mtch := List.zipWith (fun p t => decide (p = t)) predict target
      .ok { a with _matches := a._matches ++ [mtch] }

/-- `Accuracy.value` property: `{self._name: self._matches[-1]}`.
`[-1]` on an empty Python list raises IndexError; otherwise the most recent
entry is returned (we return the entry itself; the singleton dict wrapper
with the fixed key carries no further information). -/
def Accuracy.value (a : Accuracy) : Except PyError (List Bool) :=
  match a._matches.getLast? with
  | none => .error .indexError
  | some m => .ok m

/-- `Accuracy.avg_value` property:

```python
num_correct = np.count_nonzero(self._matches)
return {self._name: num_correct / len(self._matches)}
```

`np.count_nonzero` counts the `True` entries across all recorded arrays and
returns a Python `int`; dividing it by `len(self._matches) == 0` raises
ZeroDivisionError.  The float quotient is modelled exactly in `ℚ`. -/
def Accuracy.avg_value (a : Accuracy) : Except PyError ℚ :=
  let num_correct : ℕ := (a._matches.map (fun m => m.countP id)).sum
  if a._matches.length = 0 then .error .zeroDivisionError
  else .ok ((num_correct : ℚ) / (a._matches.length : ℚ))

/-- `Accuracy.reset`: `self._matches = []`. -/
def Accuracy.reset (a : Accuracy) : Accuracy :=
  { a with _matches := [] }

/-- A sequence of single-sample `update` calls: each call passes one output
tensor holding a one-row batch (`output = [[dist]]`) and the matching
one-element target vector, as the IEEngine does for batch size 1. -/
def runUpdates (a : Accuracy) : List (List ℚ × ℕ) → Except PyError Accuracy
  | [] => .ok a
  | s :: rest =>
      match a.update [[s.1]] [s.2] with
      | .error e => .error e
      | .ok a2 => runUpdates a2 rest

/-- The match entry recorded by a single-sample `update` call. -/
def sampleMatch (s : List ℚ × ℕ) : List Bool :=
  [decide (npArgmax s.1 = s.2)]

/-! ### The `ClassificationDataLoader`

```python
def __init__(self, data_source):
    self.data_source = Path(data_source)
    self.dataset = [p for p in data_dir.glob("**/*") if p.suffix in (".png", ".jpg")]
    self.class_names = sorted([item.name for item in Path(data_dir).iterdir() if item.is_dir()])
```

Note that `self.dataset` and `self.class_names` are built from the
module-global `data_dir`, not from the `data_source` argument; `data_source`
is only stored and later used by `_read_image`.  The directory listing of the
global `data_dir` is passed to the embedded constructor explicitly. -/

/-- One path returned by `Path.glob`: its full path string, the name of its
immediate parent directory, and its suffix (extension including the dot). -/
structure FileEntry where
  path : String
  parentName : String
  suffix : String
deriving DecidableEq, Repr

/-- The directory listing of the module-global `data_dir`: the entries of
the recursive glob `data_dir.glob("**/*")` in traversal order, and the names
of the immediate subdirectories of `data_dir` (the entries of
`Path(data_dir).iterdir()` that are directories, in listing order). -/
structure DirListing where
  globAll : List FileEntry
  subdirNames : List String
deriving DecidableEq, Repr

/-- The filter `p.suffix in (".png", ".jpg")`. -/
def isImageFile (fe : FileEntry) : Bool :=
  fe.suffix = ".png" || fe.suffix = ".jpg"

structure ClassificationDataLoader where
  data_source : String
  dataset : List FileEntry
  class_names : List String
deriving DecidableEq, Repr

/-- `ClassificationDataLoader.__init__(data_source)` in the environment where
the module-global `data_dir` has listing `data_dir`.  The Python builtin `sorted` is a
stable comparison sort on the lexicographic string order, embedded as
`List.insertionSort` (also stable, hence the identical list). -/
def ClassificationDataLoader.init (data_dir : DirListing) (data_source : String) :
    ClassificationDataLoader :=
  { data_source := data_source
  , dataset := data_dir.globAll.filter isImageFile
  , class_names := data_dir.subdirNames.insertionSort (· ≤ ·) }

/-- `ClassificationDataLoader.__len__`: `len(self.dataset)`. -/
def ClassificationDataLoader.len (dl : ClassificationDataLoader) : ℕ :=
  dl.dataset.length

/-- Python `list.index(x)`: position of the first occurrence of `x`,
ValueError when `x` is absent. -/
def pyIndex (xs : List String) (x : String) : Except PyError ℕ :=
  match xs with
  | [] => .error .valueError
  | y :: ys => if y = x then .ok 0 else (pyIndex ys x).map (· + 1)

/-- Python list subscription `xs[i]` with an `int` index: a negative index
counts from the end (`i + len(xs)`); `none` models the IndexError raised
when the index is out of range on either side. -/
def pyGetElem {α : Type} (xs : List α) (i : ℤ) : Option α :=
  if 0 ≤ i then xs[i.toNat]?
  else if 0 ≤ i + xs.length then xs[(i + xs.length).toNat]?
  else none

/-- `os.path.join(a, b)` for the two-argument case used by the notebook: an
absolute second component discards the first; otherwise a separator is
inserted unless `a` is empty or already ends in one. -/
def os_path_join (a b : String) : String :=
  if b.startsWith "/" then b
  else if a = "" || a.endsWith "/" then a ++ b
  else a ++ "/" ++ b

/-- `ClassificationDataLoader._read_image(index)`:

```python
image = cv2.imread(os.path.join(self.data_source, index))[:, :, (2, 1, 0)]
image = cv2.resize(image, (180, 180)).astype(np.float32)
```

The parameter named `index` actually receives the filepath of the sample.  The
cv2 calls are external I/O: decoding, BGR reordering and the 180x180 float32
resize are a fixed deterministic function of the bytes behind the resolved
path, so the processed image is represented by that resolved path. -/
def ClassificationDataLoader.read_image (dl : ClassificationDataLoader) (filepath : FileEntry) :
    String :=
  os_path_join dl.data_source filepath.path

/-- `ClassificationDataLoader.__getitem__(index)`:

```python
if index >= len(self):
    raise IndexError
filepath = self.dataset[index]
annotation = (index, self.class_names.index(filepath.parent.name))
image = self._read_image(filepath)
return annotation, image
```

Only `index >= len(self)` is guarded explicitly; the subscription itself
raises IndexError for an index below `-len(self)`, and `list.index` raises
ValueError when the parent directory name is not a class name. -/
def ClassificationDataLoader.getitem (dl : ClassificationDataLoader) (index : ℤ) :
    Except PyError ((ℤ × ℕ) × String) :=
  if (dl.len : ℤ) ≤ index then .error .indexError
  else
    match pyGetElem dl.dataset index with
    | none => .error .indexError
    | some filepath =>
        match pyIndex dl.class_names filepath.parentName with
        | .error e => .error e
        | .ok ci => .ok ((index, ci), dl.read_image filepath)

/-! ### The quantization driver (POT optimization cell)

```python
model = load_model(model_config=model_config)
original_model = copy.deepcopy(model)
...
compressed_model = pipeline.run(model=model)
compress_model_weights(model=compressed_model)
```

Model artifacts are mutable Python objects; the aliasing structure of the driver
is made explicit with a tiny append-only heap of artifact values indexed by
`ℕ` references.  The POT algorithms are external: `pipeline.run` is
parameterized by an arbitrary transformation `q` that it applies in place to
the model it is handed (returning that model), and `compress_model_weights`
by an in-place weight transformation `w`; `load_model` is parameterized by
the artifact value `source` read from the `.xml`/`.bin` files. -/

/-- A heap of model artifacts of type `α`; references are list positions. -/
structure PotStore (α : Type) where
  heap : List α
deriving Repr

/-- Dereference a model artifact. -/
def PotStore.read {α : Type} (st : PotStore α) (r : ℕ) : Option α :=
  st.heap[r]?

/-- `load_model(model_config)`: allocates a fresh artifact holding the
deserialized source model. -/
def load_model {α : Type} (st : PotStore α) (source : α) : PotStore α × ℕ :=
  (⟨st.heap ++ [source]⟩, st.heap.length)

/-- `copy.deepcopy(model)`: allocates a fresh artifact with the same value,
sharing no mutable state with the original. -/
def deepcopy {α : Type} (st : PotStore α) (r : ℕ) : PotStore α × ℕ :=
  match st.heap[r]? with
  | some v => (⟨st.heap ++ [v]⟩, st.heap.length)
  | none => (st, st.heap.length)

/-- `pipeline.run(model)`: applies the configured compression algorithms to
the model it is handed, in place, and returns that model.  The algorithm
itself is external, hence an arbitrary `q`. -/
def pipeline_run {α : Type} (q : α → α) (st : PotStore α) (r : ℕ) : PotStore α × ℕ :=
  match st.heap[r]? with
  | some v => (⟨st.heap.set r (q v)⟩, r)
  | none => (st, r)

/-- `compress_model_weights(model)`: in-place weight re-encoding of the
model it is handed; external, hence an arbitrary `w`. -/
def compress_model_weights {α : Type} (w : α → α) (st : PotStore α) (r : ℕ) : PotStore α :=
  match st.heap[r]? with
  | some v => ⟨st.heap.set r (w v)⟩
  | none => st

/-- The references produced by the driver cell, with the final heap. -/
structure PotRun (α : Type) where
  store : PotStore α
  model : ℕ
  original_model : ℕ
  compressed_model : ℕ

/-- Steps 1-7 of the POT optimization cell: load the model, deep-copy it
into `original_model`, run the compression pipeline on `model`, and compress
the weights of the resulting model in place.  (Steps 2-5 build the data loader,
metric, engine and pipeline — they allocate no model artifacts — and step 8
serializes `compressed_model` without mutating it.) -/
def potDriver {α : Type} (source : α) (q w : α → α) : PotRun α :=
  let st0 : PotStore α := ⟨[]⟩
  let s1 := load_model st0 source
  let s2 := deepcopy s1.1 s1.2
  let s3 := pipeline_run q s2.1 s1.2
  let st4 := compress_model_weights w s3.1 s3.2
  { store := st4, model := s1.2, original_model := s2.2, compressed_model := s3.2 }

/-! ### The evaluation cell (step 9)

```python
original_metric_results = pipeline.evaluate(original_model)
if original_metric_results:
    print(f"Accuracy of the original model:  {next(iter(original_metric_results.values())):.5f}")

quantized_metric_results = pipeline.evaluate(compressed_model)
if quantized_metric_results:
    print(f"Accuracy of the quantized model: {next(iter(quantized_metric_results.values())):.5f}")
```

`pipeline.evaluate` is external; its result is a dict of metric values,
modelled as an association list (`none` models a `None` result).  Printed
lines are modelled as (label, value) pairs. -/

/-- Python truthiness of an optional dict: `None` and the empty dict are
falsy, a nonempty dict is truthy. -/
def pyTruthy (d : Option (List (String × ℚ))) : Bool :=
  match d with
  | none => false
  | some l => !l.isEmpty

/-- `next(iter(d.values()))`: the first value of the dict, StopIteration
when the dict is empty. -/
def nextIterValues (l : List (String × ℚ)) : Except PyError ℚ :=
  match l with
  | [] => .error .stopIteration
  | kv :: _ => .ok kv.2

/-- The evaluation cell: each result set is printed only when truthy, as one
labelled accuracy line; the returned list is the sequence of printed lines. -/
def printAccuracyReport (origRes quantRes : Option (List (String × ℚ))) :
    Except PyError (List (String × ℚ)) := do
  let l1 ←
    if pyTruthy origRes then do
      let v ← nextIterValues (origRes.getD [])
      pure [("Accuracy of the original model", v)]
    else pure []
  let l2 ←
    if pyTruthy quantRes then do
      let v ← nextIterValues (quantRes.getD [])
      pure [("Accuracy of the quantized model", v)]
    else pure []
  pure (l1 ++ l2)

/-- The lines one branch of the evaluation cell prints: one labelled line
holding the first metric value when the result set is present and nonempty,
nothing otherwise. -/
def accuracyLines (label : String) (res : Option (List (String × ℚ))) : List (String × ℚ) :=
  match res with
  | some (kv :: _) => [(label, kv.2)]
  | _ => []

/-- A small concrete `data_dir` listing used to instantiate the universally
quantified theorems: two image files, each directly inside one of the two
category subdirectories `daisy` and `rose`, plus one non-image file; the
`iterdir` order of the subdirectories is deliberately not alphabetical. -/
def sampleDirListing : DirListing :=
  { globAll :=
      [ { path := "/data/daisy/1.jpg", parentName := "daisy", suffix := ".jpg" }
      , { path := "/data/rose/2.png", parentName := "rose", suffix := ".png" }
      , { path := "/data/LICENSE.txt", parentName := "flower_photos", suffix := ".txt" } ]
  , subdirNames := ["rose", "daisy"] }

theorem update_single (a : Accuracy) (d : List ℚ) (t : ℕ) :
    a.update [[d]] [t] = .ok { a with _matches := a._matches ++ [[decide (npArgmax d = t)]] } := by
  simp [Accuracy.update]

theorem runUpdates_ok (samples : List (List ℚ × ℕ)) (a : Accuracy) :
    runUpdates a samples = .ok { a with _matches := a._matches ++ samples.map sampleMatch } := by
  induction samples generalizing a with
  | nil => simp [runUpdates]
  | cons s rest ih =>
      rw [runUpdates, update_single]
      simp only [ih, sampleMatch, List.map_cons, List.append_assoc, List.singleton_append]

theorem countCorrect_of_map (samples : List (List ℚ × ℕ)) :
    ((samples.map sampleMatch).map (fun m => m.countP id)).sum
      = samples.countP (fun s => decide (npArgmax s.1 = s.2)) := by
  induction samples with
  | nil => simp
  | cons s rest ih =>
      simp only [List.map_cons, List.sum_cons, List.countP_cons, sampleMatch, List.map_map] at ih ⊢
      by_cases h : npArgmax s.1 = s.2 <;> simp [h, ih, Nat.add_comm]


theorem pyIndex_of_mem {xs : List String} {x : String} (h : x ∈ xs) :
    ∃ i, pyIndex xs x = .ok i ∧ i < xs.length ∧ xs[i]? = some x := by
  induction xs with
  | nil => cases h
  | cons y ys ih =>
      by_cases hy : y = x
      · exact ⟨0, by simp [pyIndex, hy], by simp, by simp [hy]⟩
      · have hx : x ∈ ys := by
          cases h with
          | head => exact absurd rfl hy
          | tail _ h2 => exact h2
        obtain ⟨i, hi, hlen, hget⟩ := ih hx
        exact ⟨i + 1, by simp [pyIndex, hy, hi, Except.map], by simpa using hlen,
          by simpa using hget⟩

theorem class_names_mem (data_dir : DirListing) (data_source : String) (x : String) :
    x ∈ (ClassificationDataLoader.init data_dir data_source).class_names ↔
      x ∈ data_dir.subdirNames := by
  simp [ClassificationDataLoader.init]

theorem dataset_parent_mem (data_dir : DirListing) (data_source : String)
    (hlayout : ∀ fe ∈ data_dir.globAll, isImageFile fe = true → fe.parentName ∈ data_dir.subdirNames)
    {fe : FileEntry} (hfe : fe ∈ (ClassificationDataLoader.init data_dir data_source).dataset) :
    fe.parentName ∈ (ClassificationDataLoader.init data_dir data_source).class_names := by
  rw [class_names_mem]
  simp only [ClassificationDataLoader.init, List.mem_filter] at hfe
  exact hlayout fe hfe.1 hfe.2


theorem printAccuracyReport_eq (origRes quantRes : Option (List (String × ℚ))) :
    printAccuracyReport origRes quantRes =
      .ok (accuracyLines "Accuracy of the original model" origRes ++
            accuracyLines "Accuracy of the quantized model" quantRes) := by
  rcases origRes with _ | (_ | ⟨kv, l⟩) <;> rcases quantRes with _ | (_ | ⟨kv2, l2⟩) <;>
    simp [printAccuracyReport, pyTruthy, nextIterValues, accuracyLines, pure, Except.pure,
      bind, Except.bind]


/-! ### Claim theorems -/

/-- Claim C1: for every sequence of M single-sample `Accuracy.update` calls
of which C recorded a correct prediction (the arg-max of the output equals
the target), a subsequent read of `avg_value` returns exactly C/M (the
embedding computes in `ℚ`, so the value is exact, a fortiori within the
floating-point tolerance 1e-9). -/
theorem accuracy_avg_value_is_fraction_correct (samples : List (List ℚ × ℕ))
    (h : samples ≠ []) :
    ∃ a, runUpdates Accuracy.init samples = .ok a ∧
      a.avg_value =
        .ok ((samples.countP (fun s => decide (npArgmax s.1 = s.2)) : ℚ) /
              (samples.length : ℚ)) := by
  refine ⟨_, runUpdates_ok samples Accuracy.init, ?_⟩
  have hM : ¬((samples.map sampleMatch).length = 0) := by
    simpa using fun h0 => h (List.length_eq_zero.mp h0)
  simp only [Accuracy.avg_value, Accuracy.init, List.nil_append]
  rw [countCorrect_of_map, if_neg hM, List.length_map]

/-- Witness for C1: two updates, the first correct (arg-max 0 = target 0),
the second wrong (arg-max 1 ≠ target 0); the average is 1/2. -/
theorem accuracy_avg_value_is_fraction_correct_witness :
    ([([1, 0], 0), ([0, 1], 0)] : List (List ℚ × ℕ)) ≠ [] ∧
      ∃ a, runUpdates Accuracy.init [([1, 0], 0), ([0, 1], 0)] = .ok a ∧
        a.avg_value =
          .ok ((List.countP (fun s => decide (npArgmax s.1 = s.2))
                  ([([1, 0], 0), ([0, 1], 0)] : List (List ℚ × ℕ)) : ℚ) /
                (([([1, 0], 0), ([0, 1], 0)] : List (List ℚ × ℕ)).length : ℚ)) :=
  ⟨by decide, accuracy_avg_value_is_fraction_correct [([1, 0], 0), ([0, 1], 0)] (by decide)⟩

/-- Claim C3: after `Accuracy.reset()` the recorded match count is 0, and a
read of `avg_value` over the empty record does not silently produce a
number: `num_correct / len(self._matches)` raises ZeroDivisionError (both
operands are Python ints and the denominator is 0).  The same holds for a
freshly constructed `Accuracy`. -/
theorem accuracy_reset_zero_and_avg_guarded (a : Accuracy) :
    (a.reset)._matches.length = 0 ∧
      (a.reset).avg_value = .error .zeroDivisionError ∧
      Accuracy.init.avg_value = .error .zeroDivisionError := by
  refine ⟨rfl, ?_, ?_⟩ <;> simp [Accuracy.reset, Accuracy.avg_value, Accuracy.init]

/-- Claim C6: a single-sample `Accuracy.update` call computes the arg-max
class of the output distribution, compares it to the target label, and
appends exactly one entry — the boolean of that comparison — to the recorded
sequence; `value` then returns exactly that most recent boolean. -/
theorem accuracy_update_appends_match_and_value (a : Accuracy) (d : List ℚ) (t : ℕ) :
    ∃ a2, a.update [[d]] [t] = .ok a2 ∧
      a2._matches = a._matches ++ [[decide (npArgmax d = t)]] ∧
      a2._matches.length = a._matches.length + 1 ∧
      a2.value = .ok [decide (npArgmax d = t)] := by
  refine ⟨_, update_single a d t, rfl, by simp, ?_⟩
  simp [Accuracy.value, List.getLast?_concat]

/-- Claim C9: reading `Accuracy.value` on an empty record — immediately
after construction, or after `reset()` — raises IndexError
(`self._matches[-1]` on an empty list), rather than returning a 0/1
value. -/
theorem accuracy_value_empty_raises :
    Accuracy.init.value = .error .indexError ∧
      ∀ a : Accuracy, (a.reset).value = .error .indexError := by
  constructor
  · simp [Accuracy.init, Accuracy.value]
  · intro a
    simp [Accuracy.reset, Accuracy.value]

/-- Successful lookup inside `__getitem__`: whenever the Python subscription
of `self.dataset` yields a file whose parent directory is a class name, the
whole call returns the annotation and processed image of that file. -/
theorem getitem_ok_of_pyGetElem (data_dir : DirListing) (data_source : String)
    (hlayout : ∀ fe ∈ data_dir.globAll, isImageFile fe = true →
      fe.parentName ∈ data_dir.subdirNames)
    {i : ℤ} {fe : FileEntry}
    (hget : pyGetElem (ClassificationDataLoader.init data_dir data_source).dataset i = some fe)
    (hlt : i < ((ClassificationDataLoader.init data_dir data_source).len : ℤ)) :
    ∃ ci, (ClassificationDataLoader.init data_dir data_source).getitem i =
        .ok ((i, ci), (ClassificationDataLoader.init data_dir data_source).read_image fe) ∧
      ci < (ClassificationDataLoader.init data_dir data_source).class_names.length ∧
      (ClassificationDataLoader.init data_dir data_source).class_names[ci]? =
        some fe.parentName := by
  have hmem : fe ∈ (ClassificationDataLoader.init data_dir data_source).dataset := by
    unfold pyGetElem at hget
    split at hget
    · exact List.getElem?_mem hget
    · split at hget
      · exact List.getElem?_mem hget
      · exact absurd hget (by simp)
  have hpar := dataset_parent_mem data_dir data_source hlayout hmem
  obtain ⟨ci, hci, hcilen, hciget⟩ := pyIndex_of_mem hpar
  refine ⟨ci, ?_, hcilen, hciget⟩
  rw [ClassificationDataLoader.getitem, if_neg (not_le.mpr hlt), hget]
  simp only [hci]

/-- Claim C2: `__getitem__` on a loader over a directory-per-category data
directory fails with IndexError for every index at or above the sample
count, and succeeds for every index in [0, N). -/
theorem getitem_upper_guard_and_in_range_ok (data_dir : DirListing) (data_source : String)
    (hlayout : ∀ fe ∈ data_dir.globAll, isImageFile fe = true →
      fe.parentName ∈ data_dir.subdirNames)
    (i : ℤ) :
    (((ClassificationDataLoader.init data_dir data_source).len : ℤ) ≤ i →
        (ClassificationDataLoader.init data_dir data_source).getitem i = .error .indexError) ∧
      (0 ≤ i → i < ((ClassificationDataLoader.init data_dir data_source).len : ℤ) →
        ∃ r, (ClassificationDataLoader.init data_dir data_source).getitem i = .ok r) := by
  constructor
  · intro hge
    rw [ClassificationDataLoader.getitem, if_pos hge]
  · intro h0 hlt
    have hnat : i.toNat < (ClassificationDataLoader.init data_dir data_source).dataset.length := by
      simp only [ClassificationDataLoader.len] at hlt
      omega
    obtain ⟨fe, hfe⟩ : ∃ fe,
        (ClassificationDataLoader.init data_dir data_source).dataset[i.toNat]? = some fe :=
      ⟨_, List.getElem?_eq_getElem hnat⟩
    have hget : pyGetElem (ClassificationDataLoader.init data_dir data_source).dataset i
        = some fe := by
      rw [pyGetElem, if_pos h0]
      exact hfe
    obtain ⟨ci, hok, -, -⟩ := getitem_ok_of_pyGetElem data_dir data_source hlayout hget hlt
    exact ⟨_, hok⟩

/-- Witness for C2: on the concrete two-class listing (two image files in
two class directories, one non-image file), index 0 instantiates both the
guard statement and the in-range success statement. -/
theorem getitem_upper_guard_and_in_range_ok_witness :
    (∀ fe ∈ sampleDirListing.globAll, isImageFile fe = true →
        fe.parentName ∈ sampleDirListing.subdirNames) ∧
      ((((ClassificationDataLoader.init sampleDirListing "/data").len : ℤ) ≤ 0 →
          (ClassificationDataLoader.init sampleDirListing "/data").getitem 0
            = .error .indexError) ∧
        (0 ≤ (0 : ℤ) →
          (0 : ℤ) < ((ClassificationDataLoader.init sampleDirListing "/data").len : ℤ) →
          ∃ r, (ClassificationDataLoader.init sampleDirListing "/data").getitem 0 = .ok r)) :=
  ⟨by decide, getitem_upper_guard_and_in_range_ok sampleDirListing "/data" (by decide) 0⟩

/-- Claim C4: over a data directory whose image files all sit in category
subdirectories (with, as on a real filesystem, distinct subdirectory
names), the loader reports exactly the number of image files; its class
catalog is the subdirectory names, deduplicated (here: still without
duplicates) and sorted ascending; and the annotation of every sample carries the
catalog position of its parent directory name, a value in [0, K). -/
theorem dataloader_count_catalog_and_labels (data_dir : DirListing) (data_source : String)
    (dl : ClassificationDataLoader)
    (hdl : dl = ClassificationDataLoader.init data_dir data_source)
    (hlayout : ∀ fe ∈ data_dir.globAll, isImageFile fe = true →
      fe.parentName ∈ data_dir.subdirNames)
    (hnodup : data_dir.subdirNames.Nodup) :
    dl.len = data_dir.globAll.countP isImageFile ∧
      dl.class_names.Sorted (· ≤ ·) ∧
      dl.class_names.Nodup ∧
      (∀ x, x ∈ dl.class_names ↔ x ∈ data_dir.subdirNames) ∧
      dl.class_names.length = data_dir.subdirNames.length ∧
      (∀ i : ℕ, i < dl.len → ∃ fe ci,
        dl.dataset[i]? = some fe ∧
        dl.getitem (i : ℤ) = .ok (((i : ℤ), ci), dl.read_image fe) ∧
        ci < data_dir.subdirNames.length ∧
        dl.class_names[ci]? = some fe.parentName) := by
  subst hdl
  refine ⟨?_, ?_, ?_, class_names_mem data_dir data_source, ?_, ?_⟩
  · simp [ClassificationDataLoader.len, ClassificationDataLoader.init,
      List.countP_eq_length_filter]
  · exact List.sorted_insertionSort (· ≤ ·) data_dir.subdirNames
  · exact (List.perm_insertionSort _ data_dir.subdirNames).nodup_iff.mpr hnodup
  · simp [ClassificationDataLoader.init]
  · intro i hi
    have hnat : i < (ClassificationDataLoader.init data_dir data_source).dataset.length := hi
    obtain ⟨fe, hfe⟩ : ∃ fe,
        (ClassificationDataLoader.init data_dir data_source).dataset[i]? = some fe :=
      ⟨_, List.getElem?_eq_getElem hnat⟩
    have hget : pyGetElem (ClassificationDataLoader.init data_dir data_source).dataset (i : ℤ)
        = some fe := by
      rw [pyGetElem, if_pos (by omega)]
      simpa using hfe
    have hlt : (i : ℤ) < ((ClassificationDataLoader.init data_dir data_source).len : ℤ) := by
      exact_mod_cast hi
    obtain ⟨ci, hok, hcilen, hciget⟩ :=
      getitem_ok_of_pyGetElem data_dir data_source hlayout hget hlt
    refine ⟨fe, ci, hfe, hok, ?_, hciget⟩
    simpa [ClassificationDataLoader.init] using hcilen

/-- Witness for C4: the concrete two-class listing satisfies both layout
hypotheses, and the theorem instantiates to it (2 samples, catalog
["daisy", "rose"]). -/
theorem dataloader_count_catalog_and_labels_witness :
    ClassificationDataLoader.init sampleDirListing "/data"
        = ClassificationDataLoader.init sampleDirListing "/data" ∧
      (∀ fe ∈ sampleDirListing.globAll, isImageFile fe = true →
        fe.parentName ∈ sampleDirListing.subdirNames) ∧
      sampleDirListing.subdirNames.Nodup ∧
      ((ClassificationDataLoader.init sampleDirListing "/data").len
          = sampleDirListing.globAll.countP isImageFile ∧
        (ClassificationDataLoader.init sampleDirListing "/data").class_names.Sorted (· ≤ ·) ∧
        (ClassificationDataLoader.init sampleDirListing "/data").class_names.Nodup ∧
        (∀ x, x ∈ (ClassificationDataLoader.init sampleDirListing "/data").class_names ↔
          x ∈ sampleDirListing.subdirNames) ∧
        (ClassificationDataLoader.init sampleDirListing "/data").class_names.length
          = sampleDirListing.subdirNames.length ∧
        (∀ i : ℕ, i < (ClassificationDataLoader.init sampleDirListing "/data").len →
          ∃ fe ci,
            (ClassificationDataLoader.init sampleDirListing "/data").dataset[i]? = some fe ∧
            (ClassificationDataLoader.init sampleDirListing "/data").getitem (i : ℤ)
              = .ok (((i : ℤ), ci),
                  (ClassificationDataLoader.init sampleDirListing "/data").read_image fe) ∧
            ci < sampleDirListing.subdirNames.length ∧
            (ClassificationDataLoader.init sampleDirListing "/data").class_names[ci]?
              = some fe.parentName)) :=
  ⟨rfl, by decide, by decide,
    dataloader_count_catalog_and_labels sampleDirListing "/data" _ rfl (by decide) (by decide)⟩

/-- Claim C8: the loader builds its dataset and class catalog from the
module-global `data_dir`, not from its `data_source` argument: two loaders
constructed over the same global `data_dir` with different `data_source`
arguments have identical datasets (hence sample counts and sample paths)
and identical class catalogs. -/
theorem dataloader_built_from_global_data_dir (data_dir : DirListing) (s1 s2 : String) :
    (ClassificationDataLoader.init data_dir s1).dataset
        = (ClassificationDataLoader.init data_dir s2).dataset ∧
      (ClassificationDataLoader.init data_dir s1).class_names
        = (ClassificationDataLoader.init data_dir s2).class_names ∧
      (ClassificationDataLoader.init data_dir s1).len
        = (ClassificationDataLoader.init data_dir s2).len :=
  ⟨rfl, rfl, rfl⟩

/-- Claim C10: `__getitem__` guards only against `index >= len(self)`; for a
non-empty dataset of N samples and any index in [-N, -1], no IndexError is
raised: Python list subscription wraps around, and the call returns the
data of the sample at position N + index (the annotation keeping the
negative index as passed, with the class label of that sample). -/
theorem getitem_negative_index_wraps (data_dir : DirListing) (data_source : String)
    (dl : ClassificationDataLoader)
    (hdl : dl = ClassificationDataLoader.init data_dir data_source)
    (hlayout : ∀ fe ∈ data_dir.globAll, isImageFile fe = true →
      fe.parentName ∈ data_dir.subdirNames)
    (i : ℤ) (hN : 0 < dl.len) (hlow : -(dl.len : ℤ) ≤ i) (hneg : i < 0) :
    ∃ fe ci,
      dl.dataset[(i + dl.len).toNat]? = some fe ∧
      dl.getitem i = .ok ((i, ci), dl.read_image fe) ∧
      dl.class_names[ci]? = some fe.parentName := by
  subst hdl
  simp only [ClassificationDataLoader.len] at hN hlow ⊢
  have hnat : (i + (ClassificationDataLoader.init data_dir data_source).dataset.length).toNat <
      (ClassificationDataLoader.init data_dir data_source).dataset.length := by omega
  obtain ⟨fe, hfe⟩ : ∃ fe,
      (ClassificationDataLoader.init data_dir data_source).dataset[
        (i + (ClassificationDataLoader.init data_dir data_source).dataset.length).toNat]?
      = some fe :=
    ⟨_, List.getElem?_eq_getElem hnat⟩
  have hget : pyGetElem (ClassificationDataLoader.init data_dir data_source).dataset i
      = some fe := by
    rw [pyGetElem, if_neg (by omega), if_pos (by omega)]
    exact hfe
  have hlt : i < ((ClassificationDataLoader.init data_dir data_source).len : ℤ) := by
    simp only [ClassificationDataLoader.len]
    omega
  obtain ⟨ci, hok, -, hciget⟩ := getitem_ok_of_pyGetElem data_dir data_source hlayout hget hlt
  exact ⟨fe, ci, hfe, hok, hciget⟩

/-- Witness for C10: on the concrete two-sample listing, index -1 raises no
IndexError and returns the data of sample 1 (the rose image). -/
theorem getitem_negative_index_wraps_witness :
    ClassificationDataLoader.init sampleDirListing "/data"
        = ClassificationDataLoader.init sampleDirListing "/data" ∧
      (∀ fe ∈ sampleDirListing.globAll, isImageFile fe = true →
        fe.parentName ∈ sampleDirListing.subdirNames) ∧
      0 < (ClassificationDataLoader.init sampleDirListing "/data").len ∧
      -((ClassificationDataLoader.init sampleDirListing "/data").len : ℤ) ≤ -1 ∧
      (-1 : ℤ) < 0 ∧
      ∃ fe ci,
        (ClassificationDataLoader.init sampleDirListing "/data").dataset[
            ((-1 : ℤ) + (ClassificationDataLoader.init sampleDirListing "/data").len).toNat]?
          = some fe ∧
        (ClassificationDataLoader.init sampleDirListing "/data").getitem (-1)
          = .ok (((-1 : ℤ), ci),
              (ClassificationDataLoader.init sampleDirListing "/data").read_image fe) ∧
        (ClassificationDataLoader.init sampleDirListing "/data").class_names[ci]?
          = some fe.parentName :=
  ⟨rfl, by decide, by decide, by decide, by decide,
    getitem_negative_index_wraps sampleDirListing "/data" _ rfl (by decide) (-1) (by decide)
      (by decide) (by decide)⟩

/-- Claim C5: the quantization driver holds two independent copies of the
loaded source artifact — `model`, handed to the pipeline, and
`original_model`, the deep-copied baseline.  Whatever in-place
transformations the external pipeline (`q`) and weight compression (`w`)
apply to the working copy, the baseline artifact still holds exactly the
loaded source model, so any prediction function evaluated on it (on any
fixed evaluation set) yields what it yields on the freshly loaded model. -/
theorem pot_driver_baseline_unchanged {α β : Type} (source : α) (q w : α → α)
    (predictFn : α → β) :
    (potDriver source q w).original_model ≠ (potDriver source q w).model ∧
      (potDriver source q w).store.read (potDriver source q w).original_model = some source ∧
      ((potDriver source q w).store.read (potDriver source q w).original_model).map predictFn
        = some (predictFn source) ∧
      (potDriver source q w).store.read (potDriver source q w).model = some (w (q source)) := by
  refine ⟨?_, rfl, rfl, rfl⟩
  simp [potDriver, load_model, deepcopy, pipeline_run, compress_model_weights]

/-- Claim C7: in the final evaluation cell, an absent metric result set —
`None` or an empty dict, both falsy — on either side is non-fatal: the
corresponding accuracy print is skipped as a no-op (the guarded
`next(iter(...))` is never reached on an empty dict) and the cell still
completes, printing only the line of the other side when that one is present. -/
theorem evaluation_missing_results_nonfatal (res other : Option (List (String × ℚ)))
    (habsent : res = none ∨ res = some []) :
    printAccuracyReport res other
        = .ok (accuracyLines "Accuracy of the quantized model" other) ∧
      printAccuracyReport other res
        = .ok (accuracyLines "Accuracy of the original model" other) := by
  rcases habsent with h | h <;> subst h <;>
    simp [printAccuracyReport_eq, accuracyLines]

/-- Witness for C7: with the original-model results absent (`None`) and the
quantized-model results present, only the quantized accuracy line is
printed, and no exception escapes. -/
theorem evaluation_missing_results_nonfatal_witness :
    ((none : Option (List (String × ℚ))) = none ∨
        (none : Option (List (String × ℚ))) = some []) ∧
      (printAccuracyReport none (some [("accuracy", 3 / 4)])
          = .ok (accuracyLines "Accuracy of the quantized model" (some [("accuracy", 3 / 4)])) ∧
        printAccuracyReport (some [("accuracy", 3 / 4)]) none
          = .ok (accuracyLines "Accuracy of the original model" (some [("accuracy", 3 / 4)]))) :=
  ⟨Or.inl rfl,
    evaluation_missing_results_nonfatal none (some [("accuracy", 3 / 4)]) (Or.inl rfl)⟩

end PotNotebook
